import Mathlib

/-!
Verification development for the ART `RuntimeCallbacks` dispatcher
(`runtime/runtime_callbacks.h`): a multi-category listener registry with
per-category `Add`, `Remove` and dispatch operations, synchronized by the
runtime's mutator reader/writer lock.

Only the header is available; the registry/dispatch loops live in
`runtime_callbacks.cc`, which is not present.  Those operations are therefore
modelled from the spec (and from the doc comments inside the header itself),
while the lock-requirement annotations (`REQUIRES`, `REQUIRES_SHARED`,
`NO_THREAD_SAFETY_ANALYSIS`) are embedded directly from the header's
declarations.
-/

/-- The three possible mutator-lock requirements a declaration in
`runtime_callbacks.h` can carry: `REQUIRES(Locks::mutator_lock_)` (exclusive),
`REQUIRES_SHARED(Locks::mutator_lock_)` (shared), or
`NO_THREAD_SAFETY_ANALYSIS` (no requirement). -/
inductive LockReq : Type where
  | none
  | shared
  | exclusive
deriving DecidableEq, Fintype

/-- The eleven listener categories of `RuntimeCallbacks` (one `std::vector`
field each, lines 264-285 of the header). -/
inductive Category : Type where
  | threadLifecycle
  | classLoad
  | sigQuit
  | phase
  | method
  | monitor
  | park
  | methodInspection
  | ddm
  | debuggerControl
  | reflectiveValueVisit
deriving DecidableEq, Fintype

/-- Lock requirement of the `Add<Category>Callback` member, read off the
header's annotations: `AddThreadLifecycleCallback`, `AddClassLoadCallback`,
`AddRuntimeSigQuitCallback`, `AddRuntimePhaseCallback` and `AddMethodCallback`
are `REQUIRES(Locks::mutator_lock_)` (exclusive); `AddMonitorCallback`,
`AddParkCallback`, `AddMethodInspectionCallback`, `AddDdmCallback`,
`AddDebuggerControlCallback` and `AddReflectiveValueVisitCallback` are
`REQUIRES_SHARED(Locks::mutator_lock_)`. -/
def addRequires : Category → LockReq
  | .threadLifecycle => .exclusive
  | .classLoad => .exclusive
  | .sigQuit => .exclusive
  | .phase => .exclusive
  | .method => .exclusive
  | .monitor => .shared
  | .park => .shared
  | .methodInspection => .shared
  | .ddm => .shared
  | .debuggerControl => .shared
  | .reflectiveValueVisit => .shared

/-- Lock requirement of the `Remove<Category>Callback` member; in the header
each `Remove` carries the same annotation as the matching `Add`. -/
def removeRequires : Category → LockReq
  | .threadLifecycle => .exclusive
  | .classLoad => .exclusive
  | .sigQuit => .exclusive
  | .phase => .exclusive
  | .method => .exclusive
  | .monitor => .shared
  | .park => .shared
  | .methodInspection => .shared
  | .ddm => .shared
  | .debuggerControl => .shared
  | .reflectiveValueVisit => .shared

/-- The twenty-two dispatch entry points of `RuntimeCallbacks`. -/
inductive DispatchOp : Type where
  | threadStart
  | threadDeath
  | beginDefineClass
  | endDefineClass
  | classLoad
  | classPrepare
  | classPreDefine
  | sigQuit
  | nextRuntimePhase
  | registerNativeMethod
  | monitorContendedLocking
  | monitorContendedLocked
  | objectWaitStart
  | monitorWaitFinished
  | threadParkStart
  | threadParkFinished
  | haveLocalsChanged
  | ddmPublishChunk
  | startDebugger
  | stopDebugger
  | isDebuggerConfigured
  | visitReflectiveTargets
deriving DecidableEq, Fintype

/-- Lock requirement of each dispatch entry point, read off the header:
every dispatch member is `REQUIRES_SHARED(Locks::mutator_lock_)` except
`VisitReflectiveTargets` (line 254, `REQUIRES(Locks::mutator_lock_)`,
i.e. exclusive) and `StopDebugger` (line 246, `NO_THREAD_SAFETY_ANALYSIS`,
called during shutdown when the mutator lock is no longer acquirable). -/
def dispatchRequires : DispatchOp → LockReq
  | .visitReflectiveTargets => .exclusive
  | .stopDebugger => .none
  | _ => .shared

/-- The category whose listener list a dispatch entry point iterates. -/
def dispatchCategory : DispatchOp → Category
  | .threadStart => .threadLifecycle
  | .threadDeath => .threadLifecycle
  | .beginDefineClass => .classLoad
  | .endDefineClass => .classLoad
  | .classLoad => .classLoad
  | .classPrepare => .classLoad
  | .classPreDefine => .classLoad
  | .sigQuit => .sigQuit
  | .nextRuntimePhase => .phase
  | .registerNativeMethod => .method
  | .monitorContendedLocking => .monitor
  | .monitorContendedLocked => .monitor
  | .objectWaitStart => .monitor
  | .monitorWaitFinished => .monitor
  | .threadParkStart => .park
  | .threadParkFinished => .park
  | .haveLocalsChanged => .methodInspection
  | .ddmPublishChunk => .ddm
  | .startDebugger => .debuggerControl
  | .stopDebugger => .debuggerControl
  | .isDebuggerConfigured => .debuggerControl
  | .visitReflectiveTargets => .reflectiveValueVisit

/-- Modelled from the spec: the registry implementation in
`runtime_callbacks.cc` is not under `src/`.  `Add<Category>Callback`
"appends the listener reference to the category's list" (spec §4.1). -/
def addListener {α : Type} (cbs : List α) (cb : α) : List α :=
  cbs ++ [cb]

/-- Modelled from the spec: `Remove<Category>Callback` "deletes the first
(and only, if the no-duplicate invariant held) matching reference"
(spec §4.1). -/
def removeListener {α : Type} [DecidableEq α] (cbs : List α) (cb : α) : List α :=
  cbs.erase cb

/-- Registering the listeners of `ls` one after another into an initially
empty category list. -/
def registerAll {α : Type} (ls : List α) : List α :=
  ls.foldl addListener []

/-- Modelled from the spec: `Dispatch<Event>` "iterates the category's list in
registration order, invoking each listener's handler" (spec §4.1).  The model
records the invocation log: the listeners invoked, in invocation order. -/
def dispatchLog {α : Type} (cbs : List α) : List α :=
  cbs.foldl (fun log cb => log ++ [cb]) []

theorem foldl_addListener_eq {α : Type} (ls acc : List α) :
    ls.foldl addListener acc = acc ++ ls := by
  induction ls generalizing acc with
  | nil => simp
  | cons c rest ih => simp [addListener, ih]

theorem registerAll_eq {α : Type} (ls : List α) : registerAll ls = ls := by
  simp [registerAll, foldl_addListener_eq]

theorem dispatchLog_eq {α : Type} (cbs : List α) : dispatchLog cbs = cbs := by
  have h : ∀ acc : List α, cbs.foldl (fun log cb => log ++ [cb]) acc = acc ++ cbs := by
    induction cbs with
    | nil => simp
    | cons c rest ih => intro acc; simp [ih]
  simpa using h []

/-- Modelled from the spec: `RuntimeCallbacks::HaveLocalsChanged` in
`runtime_callbacks.cc` is not under `src/`.  Per the header's doc comment on
`MethodInspectionCallback` (lines 139-141), "If multiple callbacks are added
the runtime will short-circuit when the first one returns 'true'".  `ret cb`
is listener `cb`'s answer; the model returns the aggregate result together
with the invocation log. -/
def haveLocalsChanged {α : Type} (ret : α → Bool) : List α → Bool × List α
  | [] => (false, [])
  | cb :: rest =>
    if ret cb then (true, [cb])
    else
      let r := haveLocalsChanged ret rest
      (r.1, cb :: r.2)

/-- Modelled from the spec: `RuntimeCallbacks::IsDebuggerConfigured` in
`runtime_callbacks.cc` is not under `src/`.  Per spec §4.2, the query
"returns true if any registered listener reports true". -/
def isDebuggerConfigured {α : Type} (ret : α → Bool) : List α → Bool
  | [] => false
  | cb :: rest => if ret cb then true else isDebuggerConfigured ret rest

/-- Modelled from the spec: `RuntimeCallbacks::RegisterNativeMethod` in
`runtime_callbacks.cc` is not under `src/`.  Per spec §4.2, "each listener's
output becomes the next listener's input, and the final output is handed to
the caller".  `impl cb p` is listener `cb`'s replacement for the incoming
pointer `p`; the model returns the pointer stored into `new_implementation`
together with the invocation log, each entry recording the listener and the
pointer it received as input. -/
def registerNativeMethod {α P : Type} (impl : α → P → P) :
    List α → P → P × List (α × P)
  | [], cur => (cur, [])
  | cb :: rest, cur =>
    let r := registerNativeMethod impl rest (impl cb cur)
    (r.1, (cb, cur) :: r.2)

/-- `Chained impl cur trace final`: starting from the pointer `cur`, the
invocation trace is sequentially chained — each entry records the pointer its
listener received, that pointer is the previous listener's output (`cur` for
the first listener), and `final` is the last listener's output (`cur` when the
trace is empty). -/
inductive Chained {α P : Type} (impl : α → P → P) : P → List (α × P) → P → Prop where
  | nil : ∀ cur, Chained impl cur [] cur
  | cons : ∀ cb cur rest final, Chained impl (impl cb cur) rest final →
      Chained impl cur ((cb, cur) :: rest) final

/-- The bytecode container / class definition selection threaded through
`ClassPreDefine`: the `final_dex_file` / `final_class_def` out-parameters. -/
structure ClassDefSelection (D C : Type) where
  dexFile : D
  classDef : C

/-- Modelled from the spec: `RuntimeCallbacks::ClassPreDefine` in
`runtime_callbacks.cc` is not under `src/`.  The out-parameters start at the
initial selection and each listener may update the current selection; with
zero listeners the initial selection is returned unchanged (spec §8).  (The
multi-listener chaining policy is an open question in spec §9; for zero
listeners every policy agrees.) -/
def classPreDefine {α D C : Type} (impl : α → ClassDefSelection D C → ClassDefSelection D C)
    (cbs : List α) (initial : ClassDefSelection D C) : ClassDefSelection D C :=
  cbs.foldl (fun cur cb => impl cb cur) initial

/-- The four monitor events declared on `MonitorCallback`. -/
inductive MonitorEvent : Type where
  | monitorContendedLocking
  | monitorContendedLocked
  | objectWaitStart
  | monitorWaitFinished
deriving DecidableEq

/-- One execution of `Object#wait`.  `couldHaveSlept` records whether the
thread did (or at least could have) gone to sleep; it is `false` for an
invalid wait call that throws before sleeping. -/
structure WaitCall where
  couldHaveSlept : Bool
deriving DecidableEq

/-- Modelled from the spec: the monitor subsystem's wait path (`monitor.cc`)
is not under `src/`; modelled from the doc comments on `MonitorCallback` in
the header (lines 113-121): `ObjectWaitStart` is "Called on entry to the
Object#wait method regardless of whether or not the call is valid", while
`MonitorWaitFinished` "will only be called for threads wait calls where the
thread did (or at least could have) gone to sleep". -/
def waitEvents (w : WaitCall) : List MonitorEvent :=
  [MonitorEvent.objectWaitStart] ++
    (if w.couldHaveSlept then [MonitorEvent.monitorWaitFinished] else [])

/-- C1: for every listener category, if N listeners are registered and a
dispatch operation of that category is invoked once, every registered
listener is invoked exactly once, in registration order: the invocation log
is exactly the registration sequence, and (with the header's no-duplicate
invariant) each listener appears once in it. -/
theorem dispatch_each_listener_once {α : Type} [DecidableEq α] (ls : List α)
    (h : ls.Nodup) :
    dispatchLog (registerAll ls) = ls ∧
      ∀ cb ∈ ls, (dispatchLog (registerAll ls)).count cb = 1 := by
  refine ⟨by rw [registerAll_eq, dispatchLog_eq], ?_⟩
  intro cb hcb
  rw [registerAll_eq, dispatchLog_eq]
  exact List.count_eq_one_of_mem h hcb

/-- Witness for C1 at the concrete registration sequence `[10, 20, 30]`. -/
theorem dispatch_each_listener_once_witness :
    dispatchLog (registerAll [10, 20, 30]) = [10, 20, 30] ∧
      ∀ cb ∈ [10, 20, 30], (dispatchLog (registerAll ([10, 20, 30] : List ℕ))).count cb = 1 :=
  dispatch_each_listener_once [10, 20, 30] (by decide)

/-- C2: `HaveLocalsChanged` invokes listeners in registration order and stops
at the first listener that returns true, returning true; if every listener
returns false, all are invoked and the result is false. -/
theorem haveLocalsChanged_short_circuit {α : Type} (ret : α → Bool) :
    (∀ (pre post : List α) (cb : α), (∀ x ∈ pre, ret x = false) → ret cb = true →
        haveLocalsChanged ret (pre ++ cb :: post) = (true, pre ++ [cb])) ∧
      (∀ cbs : List α, (∀ x ∈ cbs, ret x = false) →
        haveLocalsChanged ret cbs = (false, cbs)) := by
  constructor
  · intro pre post cb
    induction pre with
    | nil => intro _ hcb; simp [haveLocalsChanged, hcb]
    | cons p ps ih =>
      intro hpre hcb
      have hp : ret p = false := hpre p (by simp)
      have ihh := ih (fun x hx => hpre x (by simp [hx])) hcb
      simp [haveLocalsChanged, hp, ihh]
  · intro cbs
    induction cbs with
    | nil => intro _; rfl
    | cons c rest ih =>
      intro hall
      have hc : ret c = false := hall c (by simp)
      have ihh := ih (fun x hx => hall x (by simp [hx]))
      simp [haveLocalsChanged, hc, ihh]

/-- Witness for C2 at the claim's concrete instances: listeners `0, 1, 2`
answering `[false, true, false]` (only `0` and `1` invoked, aggregate true),
and listeners `0, 2` answering `[false, false]` (both invoked, aggregate
false). -/
theorem haveLocalsChanged_short_circuit_witness :
    haveLocalsChanged (fun n => n == 1) ([0] ++ 1 :: [2]) = (true, [0] ++ [1]) ∧
      haveLocalsChanged (fun n : ℕ => n == 1) [0, 2] = (false, [0, 2]) :=
  ⟨(haveLocalsChanged_short_circuit _).1 [0] [2] 1 (by decide) (by decide),
    (haveLocalsChanged_short_circuit _).2 [0, 2] (by decide)⟩

/-- C4: `RegisterNativeMethod` chains the method callbacks sequentially in
registration order: the invocation log lists exactly the registered
listeners in order, the first receives the original implementation pointer,
each subsequent listener receives the previous listener's output, and the
final output is what is stored into `new_implementation`. -/
theorem registerNativeMethod_chain {α P : Type} (impl : α → P → P)
    (cbs : List α) (orig : P) :
    ((registerNativeMethod impl cbs orig).2).map Prod.fst = cbs ∧
      Chained impl orig (registerNativeMethod impl cbs orig).2
        (registerNativeMethod impl cbs orig).1 := by
  induction cbs generalizing orig with
  | nil => exact ⟨rfl, Chained.nil orig⟩
  | cons cb rest ih =>
    obtain ⟨h1, h2⟩ := ih (impl cb orig)
    refine ⟨?_, ?_⟩
    · simpa [registerNativeMethod] using h1
    · exact Chained.cons cb orig _ _ h2

/-- C6: `IsDebuggerConfigured` returns true iff at least one registered
debugger-control listener reports true. -/
theorem isDebuggerConfigured_iff_any {α : Type} (ret : α → Bool) (cbs : List α) :
    isDebuggerConfigured ret cbs = true ↔ ∃ cb ∈ cbs, ret cb = true := by
  induction cbs with
  | nil => simp [isDebuggerConfigured]
  | cons c rest ih =>
    by_cases h : ret c
    · simp [isDebuggerConfigured, h]
    · simp [isDebuggerConfigured, h, ih]

/-- C7: removing a registered listener deletes exactly the matching
reference, preserves the relative order of the remaining entries (the result
is a sublist of the original), and the removed listener is never invoked by
a subsequent dispatch over the resulting list. -/
theorem removeListener_exact {α : Type} [DecidableEq α] (cbs : List α) (cb : α)
    (h : cbs.Nodup) :
    cb ∉ removeListener cbs cb ∧
      List.Sublist (removeListener cbs cb) cbs ∧
      (∀ x, x ≠ cb → (removeListener cbs cb).count x = cbs.count x) ∧
      cb ∉ dispatchLog (removeListener cbs cb) := by
  refine ⟨h.not_mem_erase, List.erase_sublist cb cbs, ?_, ?_⟩
  · intro x hx
    exact List.count_erase_of_ne hx cbs
  · rw [dispatchLog_eq]
    exact h.not_mem_erase

/-- Witness for C7 at the concrete list `[1, 2, 3]`, removing `2`. -/
theorem removeListener_exact_witness :
    (2 : ℕ) ∉ removeListener [1, 2, 3] 2 ∧
      List.Sublist (removeListener [1, 2, 3] 2) [1, 2, 3] ∧
      (∀ x, x ≠ 2 → (removeListener ([1, 2, 3] : List ℕ) 2).count x = [1, 2, 3].count x) ∧
      (2 : ℕ) ∉ dispatchLog (removeListener [1, 2, 3] 2) :=
  removeListener_exact [1, 2, 3] 2 (by decide)

/-- C8: `ClassPreDefine` with zero registered class-load listeners leaves the
selection unchanged: `final_dex_file` receives the initial dex file and
`final_class_def` the initial class definition. -/
theorem classPreDefine_zero_listeners {α D C : Type}
    (impl : α → ClassDefSelection D C → ClassDefSelection D C)
    (initial : ClassDefSelection D C) :
    (classPreDefine impl [] initial).dexFile = initial.dexFile ∧
      (classPreDefine impl [] initial).classDef = initial.classDef :=
  ⟨rfl, rfl⟩

/-- C9: with zero listeners the value-returning dispatches yield neutral
defaults: `HaveLocalsChanged` returns false (invoking nobody),
`IsDebuggerConfigured` returns false, and `RegisterNativeMethod` stores the
original implementation pointer unchanged into `new_implementation`. -/
theorem zero_listener_neutral_defaults {α β γ P : Type}
    (retH : α → Bool) (retD : β → Bool) (impl : γ → P → P) (orig : P) :
    haveLocalsChanged retH ([] : List α) = (false, []) ∧
      isDebuggerConfigured retD ([] : List β) = false ∧
      (registerNativeMethod impl ([] : List γ) orig).1 = orig :=
  ⟨rfl, rfl, rfl⟩

/-- C3 counterexample: `AddMonitorCallback` and `RemoveMonitorCallback`
(header lines 219-220) are annotated `REQUIRES_SHARED(Locks::mutator_lock_)`,
not `REQUIRES`, so it is false that every category's Add and Remove require
exclusive access to the runtime lock. -/
theorem monitor_add_remove_not_exclusive :
    addRequires Category.monitor = LockReq.shared ∧
      removeRequires Category.monitor = LockReq.shared ∧
      ¬ (addRequires Category.monitor = LockReq.exclusive ∧
        removeRequires Category.monitor = LockReq.exclusive) := by
  decide

/-- C3 amended: Add and Remove require exclusive access exactly for the
thread-lifecycle, class-load, sig-quit, runtime-phase and method-callback
categories; for the monitor, park, method-inspection, DDM, debugger-control
and reflective-value-visit categories they are declared with shared access;
every Remove matches its Add; and the dispatch operations require shared
access, except `VisitReflectiveTargets` (exclusive) and `StopDebugger` (no
lock requirement). -/
theorem lock_requirements_table :
    (∀ cat, removeRequires cat = addRequires cat) ∧
      (∀ cat, addRequires cat = LockReq.exclusive ↔
        cat ∈ [Category.threadLifecycle, Category.classLoad, Category.sigQuit,
          Category.phase, Category.method]) ∧
      (∀ cat, addRequires cat = LockReq.exclusive ∨ addRequires cat = LockReq.shared) ∧
      (∀ op, dispatchRequires op = LockReq.shared ↔
        (op ≠ DispatchOp.visitReflectiveTargets ∧ op ≠ DispatchOp.stopDebugger)) := by
  decide

/-- C5 counterexample: per the header's doc comments, `ObjectWaitStart` fires
on entry to `Object#wait` "regardless of whether or not the call is valid",
while `MonitorWaitFinished` is only called when the thread did (or could
have) gone to sleep; for an invalid wait call that throws before sleeping,
wait-start fires without wait-finished. -/
theorem waitStart_without_waitFinished :
    MonitorEvent.objectWaitStart ∈ waitEvents ⟨false⟩ ∧
      MonitorEvent.monitorWaitFinished ∉ waitEvents ⟨false⟩ := by
  decide

/-- C5 amended: if the wait-start event fired and the thread did (or at
least could have) gone to sleep for that wait call, then the wait-finished
event also fires for it; only an invalid wait call that never could sleep
skips wait-finished. -/
theorem waitFinished_fires_when_could_sleep (w : WaitCall)
    (h : w.couldHaveSlept = true) :
    MonitorEvent.objectWaitStart ∈ waitEvents w ∧
      MonitorEvent.monitorWaitFinished ∈ waitEvents w := by
  simp [waitEvents, h]

/-- Witness for the amended C5 at a wait call that went to sleep. -/
theorem waitFinished_fires_when_could_sleep_witness :
    MonitorEvent.objectWaitStart ∈ waitEvents ⟨true⟩ ∧
      MonitorEvent.monitorWaitFinished ∈ waitEvents ⟨true⟩ :=
  waitFinished_fires_when_could_sleep ⟨true⟩ rfl

/-- C10 counterexample: it is false that every dispatch operation other than
`VisitReflectiveTargets` requires shared access: `StopDebugger` (header line
246) is `NO_THREAD_SAFETY_ANALYSIS`, i.e. it carries no lock requirement at
all. -/
theorem not_all_other_dispatches_shared :
    ¬ (∀ op : DispatchOp, op ≠ DispatchOp.visitReflectiveTargets →
        dispatchRequires op = LockReq.shared) := by
  decide

/-- C10 amended: `VisitReflectiveTargets` is the only dispatch operation
requiring exclusive access to the runtime lock; every other dispatch
operation requires shared access, with the single exception of
`StopDebugger`, which carries no lock requirement (it runs during shutdown,
outside the lock discipline) and so is not excluded from running while the
reflective visit holds the lock. -/
theorem visitReflectiveTargets_unique_exclusive :
    dispatchRequires DispatchOp.visitReflectiveTargets = LockReq.exclusive ∧
      (∀ op, dispatchRequires op = LockReq.exclusive →
        op = DispatchOp.visitReflectiveTargets) ∧
      dispatchRequires DispatchOp.stopDebugger = LockReq.none ∧
      (∀ op, op ≠ DispatchOp.visitReflectiveTargets →
        op ≠ DispatchOp.stopDebugger → dispatchRequires op = LockReq.shared) := by
  decide

/-- Witness for the amended C10 at the concrete operation `ThreadStart`. -/
theorem visitReflectiveTargets_unique_exclusive_witness :
    dispatchRequires DispatchOp.threadStart = LockReq.shared :=
  visitReflectiveTargets_unique_exclusive.2.2.2 DispatchOp.threadStart
    (by decide) (by decide)
